import Mathlib

/-!
Shallow embedding of the coco-backend core services, translated from the
Python sources:

* `app/services/ingest.py`   — session ingestion and the 7-day dashboard
  rollup engine;
* `app/services/heartbeat.py` — latest-heartbeat status classification and
  the hourly compaction of raw heartbeat events;
* `app/services/commands.py` and the command endpoints of `app/main.py`
  — the per-device FIFO command queue;
* `app/main.py` — streak derivation on dashboard reads.

Modelling conventions:

* UTC timestamps are seconds since the epoch as `Nat`; Python's timezone
  aware `datetime` arithmetic is leap-second free, so the linear second
  count is exact.  `date()` of a UTC datetime becomes division by 86400.
* `Decimal` quantities with two fractional digits (sentiment scores) are
  integers counting hundredths.  `decimal` arithmetic in the source runs
  at 28 significant digits, far beyond anything these small quantities
  need, so exact integer arithmetic is a faithful translation; the
  `ROUND_HALF_UP` quantizations become `roundHalfUpDiv` below.
* `_determine_current_tone` compares `float(sentiment)` against the
  literals 0.61 and 0.40.  The values reaching it are always multiples of
  0.01 in [0, 1] (they come out of `Decimal.quantize(Decimal("0.01"))`),
  and double rounding is strictly monotone and injective on that grid, so
  the float comparison coincides with the exact comparison of hundredths
  used here.
* Database tables become in-memory lists; SQL `ON CONFLICT DO NOTHING`,
  `SELECT ... FOR UPDATE` and `ORDER BY` become the corresponding pure
  list operations.  Server-generated ids and clock readings become
  explicit parameters.
-/

/-- Round-half-up of the exact rational `p / q` to the nearest integer
(`ROUND_HALF_UP`: halves round away from zero; all quantities here are
non-negative).  `floor (p / q + 1 / 2) = (2 * p + q) / (2 * q)`. -/
def roundHalfUpDiv (p q : Nat) : Nat :=
  (2 * p + q) / (2 * q)

/-- From `ingest.py` `_round_minutes_from_seconds`: minutes = seconds / 60
quantized to a whole number with `ROUND_HALF_UP`. -/
def round_minutes_from_seconds (seconds : Nat) : Nat :=
  roundHalfUpDiv seconds 60

/-- From `ingest.py` `_average_sentiment`: the mean of the bucket's
sentiment scores quantized to two decimal places with `ROUND_HALF_UP`.
Scores are in hundredths, so the result is again in hundredths. -/
def average_sentiment (scores : List Nat) : Nat :=
  roundHalfUpDiv scores.sum scores.length

/-- From `ingest.py` `_average_nonzero_duration`: mean of the strictly
positive daily durations, `ROUND_HALF_UP` to a whole minute; 0 when no
day has a positive duration. -/
def average_nonzero_duration (durations : List Nat) : Nat :=
  let non_zero := durations.filter (fun value => 0 < value)
  if non_zero.isEmpty then 0
  else roundHalfUpDiv non_zero.sum non_zero.length

/-- From `ingest.py` `_determine_current_tone`: walk the reversed daily
sentiment array, skip absent entries, classify the first present value
(in hundredths).  The loop body, written as structural recursion. -/
def toneScan : List (Option Nat) → String
  | [] => "neutral"
  | none :: rest => toneScan rest
  | some value :: _ =>
    if 61 ≤ value then "positive"
    else if 40 ≤ value then "neutral"
    else "negative"

/-- `_determine_current_tone(daily_sentiment)`: `toneScan` over
`reversed(daily_sentiment)`. -/
def determine_current_tone (daily_sentiment : List (Option Nat)) : String :=
  toneScan daily_sentiment.reverse

/-- From `app/main.py` `_calculate_streak_days`: count consecutive `true`
activity flags scanning from the most recent day backwards. -/
def calculate_streak_days (daily_activity : List Bool) : Nat :=
  (daily_activity.reverse.takeWhile (fun active => active)).length

/-- One row of the `sessions` table (`models.Session`, the spec's
SessionFact), restricted to the columns the rollup engine reads.
`sentiment_score` is `Numeric(4,2)` stored in hundredths. -/
structure SessionFact where
  user_id : String
  device_id : Option String
  session_id : String
  started_at : Nat
  duration_seconds : Nat
  sentiment_score : Nat
deriving Repr, DecidableEq

/-- One row of `dashboard_rollups` (`models.DashboardRollup`), minus the
user-id key which the store below carries separately. -/
structure DashboardRollup where
  last_session_at : Option Nat
  daily_activity : List Bool
  daily_durations : List Nat
  daily_sentiment : List (Option Nat)
  avg_duration_minutes : Nat
  current_tone : String
  updated_at : Nat
deriving Repr, DecidableEq

/-- UTC calendar day of a timestamp (`datetime.date()` in UTC). -/
def dateOf (t : Nat) : Nat := t / 86400

/-- `start_day = now.date() - (window_days - 1)` with the window fixed at
7 days (`recompute_dashboard_rollup` raises for any other width). -/
def startDay (now : Nat) : Nat := dateOf now - 6

/-- `window_start = datetime.combine(start_day, time.min, tzinfo=utc)`. -/
def windowStart (now : Nat) : Nat := startDay now * 86400

/-- The `SELECT` of `recompute_dashboard_rollup`: the user's sessions with
`started_at >= window_start`.  (The query's `ORDER BY started_at` only
fixes iteration order; every aggregate below is order-insensitive, so the
sort is not repeated here.) -/
def windowSessions (now : Nat) (sessions : List SessionFact) : List SessionFact :=
  sessions.filter (fun s => windowStart now ≤ s.started_at)

/-- `day_buckets[day]`: in-window sessions whose start timestamp falls on
the given UTC calendar day. -/
def bucketOf (now : Nat) (sessions : List SessionFact) (day : Nat) : List SessionFact :=
  (windowSessions now sessions).filter (fun s => dateOf s.started_at = day)

/-- `ordered_days = [start_day + offset for offset in range(window_days)]`. -/
def orderedDays (now : Nat) : List Nat :=
  (List.range 7).map (fun offset => startDay now + offset)

/-- The `last_session_at` loop: for each day bucket take the maximal
`started_at + duration_seconds` and keep the running maximum. -/
def lastSessionAt (now : Nat) (sessions : List SessionFact) : Option Nat :=
  (orderedDays now).foldl
    (fun acc day =>
      match ((bucketOf now sessions day).map
          (fun s => s.started_at + s.duration_seconds)).max? with
      | none => acc
      | some candidate =>
        match acc with
        | none => some candidate
        | some best => if best < candidate then some candidate else acc)
    none

/-- `recompute_dashboard_rollup(db, user_id, window_days)` from
`ingest.py`, as a pure function of the clock and the user's session rows,
for the only accepted window width (7 days). -/
def recompute_dashboard_rollup (now : Nat) (sessions : List SessionFact) : DashboardRollup :=
  let days := orderedDays now
  { last_session_at := lastSessionAt now sessions
    daily_activity := days.map (fun day => !(bucketOf now sessions day).isEmpty)
    daily_durations := days.map (fun day =>
      let bucket := bucketOf now sessions day
      if bucket.isEmpty then 0
      else round_minutes_from_seconds (bucket.map (fun s => s.duration_seconds)).sum)
    daily_sentiment := days.map (fun day =>
      let bucket := bucketOf now sessions day
      if bucket.isEmpty then none
      else some (average_sentiment (bucket.map (fun s => s.sentiment_score))))
    avg_duration_minutes := average_nonzero_duration ((orderedDays now).map (fun day =>
      let bucket := bucketOf now sessions day
      if bucket.isEmpty then 0
      else round_minutes_from_seconds (bucket.map (fun s => s.duration_seconds)).sum))
    current_tone := determine_current_tone ((orderedDays now).map (fun day =>
      let bucket := bucketOf now sessions day
      if bucket.isEmpty then none
      else some (average_sentiment (bucket.map (fun s => s.sentiment_score)))))
    updated_at := now }

/-- The guard at the top of `recompute_dashboard_rollup`: any window width
other than 7 raises `ValueError` (modelled as `none`). -/
def recompute_dashboard_rollup_checked (window_days : Nat) (now : Nat)
    (sessions : List SessionFact) : Option DashboardRollup :=
  if window_days = 7 then some (recompute_dashboard_rollup now sessions) else none

/-- One row of `users` (`models.User`): server-generated id plus the
externally supplied stable identifier. -/
structure User where
  id : String
  external_id : String
deriving Repr, DecidableEq

/-- `schemas.SessionSummaryIngestRequest`, exactly the fields the pydantic
model declares: `session_id`, `user_external_id`, `started_at` (validated
timezone-aware, normalized to UTC), `duration_seconds` (0–86400) and
`sentiment_score` ([0,1], here already quantized to hundredths as
`_quantize_score` does before the value is stored).  The model declares
no `status` and no `device_id` field. -/
structure SessionSummaryIngestRequest where
  session_id : String
  user_external_id : String
  started_at : Nat
  duration_seconds : Nat
  sentiment_score : Nat
deriving Repr, DecidableEq

/-- The relational state the ingest path touches: `users`, `sessions`
(unique on `session_id`) and `dashboard_rollups` keyed by user id. -/
structure DbState where
  users : List User
  sessions : List SessionFact
  rollups : List (String × DashboardRollup)
deriving Repr, DecidableEq

/-- `_get_or_create_user` from `ingest.py`: `INSERT ... ON CONFLICT
(external_id) DO NOTHING`, then `SELECT` the row.  The server-generated
uuid of a newly created row is passed in as `fresh_id`. -/
def get_or_create_user (st : DbState) (fresh_id : String) (external_id : String) :
    User × DbState :=
  match st.users.find? (fun u => u.external_id = external_id) with
  | some u => (u, st)
  | none =>
    let u : User := ⟨fresh_id, external_id⟩
    (u, { st with users := st.users ++ [u] })

/-- `ingest_session_summary` from `ingest.py`.  After resolving the user it
builds the session `INSERT` with
`values(..., status=payload.status)`; `SessionSummaryIngestRequest`
declares no `status` field, so evaluating `payload.status` raises
`AttributeError` while the statement is being built — before the insert,
the duplicate check or the rollup recompute can run.  The raised error is
modelled as `Except.error`; the request transaction is rolled back, so no
state change survives. -/
def ingest_session_summary (st : DbState) (now : Nat) (fresh_user_id : String)
    (payload : SessionSummaryIngestRequest) (device_id : Option String) :
    Except String (Bool × DbState) :=
  let _user_step := get_or_create_user st fresh_user_id payload.user_external_id
  let _ := now
  let _ := device_id
  Except.error "AttributeError: SessionSummaryIngestRequest has no attribute status"

/-- One row of `device_latest_heartbeat` (`models.DeviceLatestHeartbeat`),
restricted to the columns `_compute_status` reads.  `server_received_at`
is an `Option` because `_compute_status` guards against `None`. -/
structure DeviceLatestHeartbeat where
  agent_status : String
  latency_ms : Option Int
  server_received_at : Option Nat
deriving Repr, DecidableEq

/-- The cutoff computed by `list_heartbeat_statuses`:
`now - timedelta(minutes=stale_minutes)`. -/
def staleCutoff (now stale_minutes : Nat) : Nat :=
  now - stale_minutes * 60

/-- `_compute_status` from `heartbeat.py`: `dead` when the last-seen
timestamp is missing or older than the cutoff, else `healthy` when the
agent reports `ok` with a known latency strictly below 500 ms, else
`degraded`. -/
def compute_status (hb : DeviceLatestHeartbeat) (cutoff : Nat) : String :=
  match hb.server_received_at with
  | none => "dead"
  | some last_seen =>
    if last_seen < cutoff then "dead"
    else if hb.agent_status = "ok" then
      match hb.latency_ms with
      | some latency => if latency < 500 then "healthy" else "degraded"
      | none => "degraded"
    else "degraded"

/-- The fields of a raw heartbeat event's JSON payload that
`compact_heartbeat_events` reads, with the `payload.get(...)` defaults
already applied: `connectivity` defaults to `"unknown"` and
`agent_status` to `""` when the keys are missing. -/
structure RawPayload where
  latency_ms : Option Int
  connectivity : String
  agent_status : String
deriving Repr, DecidableEq

/-- One row of `device_heartbeat_summaries`
(`models.DeviceHeartbeatSummary`), minus the (device id, hour bucket) key
the store carries separately. -/
structure DeviceHeartbeatSummary where
  heartbeat_count : Nat
  avg_latency_ms : Option Int
  min_latency_ms : Option Int
  max_latency_ms : Option Int
  connectivity_mode : String
  agent_status_ok_count : Nat
  agent_status_degraded_count : Nat
  uptime_seconds : Nat
  reboot_count : Nat
deriving Repr, DecidableEq

/-- The known latencies of a batch: `latencies.append(latency)` for every
event whose payload carries one. -/
def batchLatencies (events : List RawPayload) : List Int :=
  events.filterMap (fun e => e.latency_ms)

/-- `avg_latency = int(sum(latencies) / len(latencies)) if latencies else
None`: exact mean truncated towards zero (`int()` of the quotient). -/
def batchAvgLatency (events : List RawPayload) : Option Int :=
  let latencies := batchLatencies events
  if latencies.isEmpty then none
  else some (Int.tdiv latencies.sum latencies.length)

/-- Python's `x or y` applied to an optional integer: `None` and `0` are
both falsy, so they fall through to the default.  Used for the min/max
latency merges in `compact_heartbeat_events`. -/
def pyOrInt (x : Option Int) (y : Int) : Int :=
  match x with
  | none => y
  | some v => if v = 0 then y else v

/-- `Counter(connectivities).most_common(1)[0][0]`: the plurality value;
`most_common` sorts stably by descending count over first-insertion
order, so ties go to the first-seen value.  `"unknown"` when the batch is
empty. -/
def pluralityMode (values : List String) : String :=
  match values.eraseDups with
  | [] => "unknown"
  | first :: rest =>
    rest.foldl (fun best c => if values.count best < values.count c then c else best) first

/-- `ok_count` of a batch: events whose `agent_status` is `"ok"`. -/
def batchOkCount (events : List RawPayload) : Nat :=
  (events.filter (fun e => e.agent_status = "ok")).length

/-- `degraded_count` of a batch: every event that is not `"ok"`. -/
def batchDegradedCount (events : List RawPayload) : Nat :=
  (events.filter (fun e => e.agent_status ≠ "ok")).length

/-- The `if existing:` branch of the upsert in `compact_heartbeat_events`:
`heartbeat_count` is incremented first, then the weighted average uses
`existing.heartbeat_count - len(events)` (the pre-merge count) as the old
weight and the already-incremented count as divisor, min/max merge
through Python's falsy `or`, and the ok/degraded counters accumulate.
`connectivity_mode`, `uptime_seconds` and `reboot_count` are not
assigned. -/
def mergeIntoSummary (existing : DeviceHeartbeatSummary) (events : List RawPayload) :
    DeviceHeartbeatSummary :=
  let n := events.length
  let count1 := existing.heartbeat_count + n
  let avg1 : Option Int :=
    match batchAvgLatency events with
    | none => existing.avg_latency_ms
    | some avg_latency =>
      match existing.avg_latency_ms with
      | some old_avg =>
        some (Int.tdiv (old_avg * ((count1 - n : Nat) : Int) + avg_latency * (n : Int))
          ((count1 : Nat) : Int))
      | none => some avg_latency
  let min1 : Option Int :=
    match (batchLatencies events).min? with
    | none => existing.min_latency_ms
    | some min_latency => some (min (pyOrInt existing.min_latency_ms min_latency) min_latency)
  let max1 : Option Int :=
    match (batchLatencies events).max? with
    | none => existing.max_latency_ms
    | some max_latency => some (max (pyOrInt existing.max_latency_ms max_latency) max_latency)
  { existing with
    heartbeat_count := count1
    avg_latency_ms := avg1
    min_latency_ms := min1
    max_latency_ms := max1
    agent_status_ok_count := existing.agent_status_ok_count + batchOkCount events
    agent_status_degraded_count := existing.agent_status_degraded_count + batchDegradedCount events }

/-- The `else` branch of the upsert: a fresh summary row; the plurality
connectivity vote happens only here.  `uptime_seconds` and `reboot_count`
take their column defaults. -/
def newSummary (events : List RawPayload) : DeviceHeartbeatSummary :=
  { heartbeat_count := events.length
    avg_latency_ms := batchAvgLatency events
    min_latency_ms := (batchLatencies events).min?
    max_latency_ms := (batchLatencies events).max?
    connectivity_mode := pluralityMode (events.map (fun e => e.connectivity))
    agent_status_ok_count := batchOkCount events
    agent_status_degraded_count := batchDegradedCount events
    uptime_seconds := 0
    reboot_count := 0 }

/-- One bucket's upsert step of `compact_heartbeat_events`: merge into the
existing `(device_id, hour_bucket)` summary when one exists, else insert
a new one. -/
def upsertSummary (existing : Option DeviceHeartbeatSummary) (events : List RawPayload) :
    DeviceHeartbeatSummary :=
  match existing with
  | some s => mergeIntoSummary s events
  | none => newSummary events

/-- One row of `device_commands` (`models.DeviceCommand`).  `id` stands
for the generated uuid primary key, `created_at` for the row's creation
timestamp. -/
structure DeviceCommand where
  id : Nat
  device_id : String
  command_type : String
  status : String
  error_message : Option String
  created_at : Nat
deriving Repr, DecidableEq

/-- `queue_command` from `commands.py`: insert a fresh `PENDING` row (the
generated id and clock reading are explicit parameters). -/
def queue_command (store : List DeviceCommand) (fresh_id : Nat) (now : Nat)
    (device_id command_type : String) : List DeviceCommand × DeviceCommand :=
  let command : DeviceCommand := ⟨fresh_id, device_id, command_type, "PENDING", none, now⟩
  (store ++ [command], command)

/-- The `SELECT ... WHERE device_id = ? AND status = 'PENDING' ORDER BY
created_at ASC LIMIT 1 FOR UPDATE` of `get_pending_command`: the row with
minimal `created_at` among that device's pending commands (on equal
timestamps SQL leaves the choice open; insertion order is used here, and
the theorems below assume distinct timestamps). -/
def oldestPending (store : List DeviceCommand) (device_id : String) : Option DeviceCommand :=
  (store.filter (fun c => c.device_id = device_id ∧ c.status = "PENDING")).foldl
    (fun acc c =>
      match acc with
      | none => some c
      | some best => if c.created_at < best.created_at then some c else acc)
    none

/-- `get_pending_command` from `commands.py`: claim the oldest pending
command of the device and mark it `PICKED_UP`; `none` when nothing is
pending. -/
def get_pending_command (store : List DeviceCommand) (device_id : String) :
    List DeviceCommand × Option DeviceCommand :=
  match oldestPending store device_id with
  | none => (store, none)
  | some c =>
    let claimed := { c with status := "PICKED_UP" }
    (store.map (fun x => if x.id = c.id then { x with status := "PICKED_UP" } else x),
     some claimed)

/-- `update_command_status` from `commands.py`: `db.get` by primary key;
when found, overwrite `status` and `error_message` unconditionally and
return the row; `None` (surfaced as HTTP 404 by
`report_command_status` in `main.py`) when the id is unknown. -/
def update_command_status (store : List DeviceCommand) (command_id : Nat)
    (new_status : String) (error : Option String) :
    List DeviceCommand × Option DeviceCommand :=
  match store.find? (fun c => c.id = command_id) with
  | none => (store, none)
  | some c =>
    let updated := { c with status := new_status, error_message := error }
    (store.map (fun x => if x.id = command_id then
        { x with status := new_status, error_message := error } else x),
     some updated)

/-- Clock reading of the C3 example scenario: day 1000 after the epoch,
12:00 UTC. -/
def exampleNow : Nat := 1000 * 86400 + 43200

/-- The three sessions of the example scenario: day offsets 2, 1 and 0
(each starting 15:00 UTC except today's 11:00), durations 90, 119 and 180
seconds, sentiments 0.62, 0.58 and 0.39. -/
def exampleSessions : List SessionFact :=
  [⟨"u", none, "s-offset2", 998 * 86400 + 54000, 90, 62⟩,
   ⟨"u", none, "s-offset1", 999 * 86400 + 54000, 119, 58⟩,
   ⟨"u", none, "s-offset0", 1000 * 86400 + 39600, 180, 39⟩]

theorem toneScan_eq_findSome (m : List (Option Nat)) :
    toneScan m =
      (match m.findSome? (fun x => x) with
      | none => "neutral"
      | some v => if 61 ≤ v then "positive" else if 40 ≤ v then "neutral" else "negative") := by
  induction m with
  | nil => rfl
  | cons head rest ih =>
    cases head with
    | none => simpa [toneScan, List.findSome?] using ih
    | some v => simp [toneScan, List.findSome?]

/-- Claim C4: tone classification is a pure function of the most recent
non-absent daily sentiment value — at least 0.61 is positive, at least
0.40 but below 0.61 is neutral, below 0.40 is negative (0.40 neutral,
0.39 negative, 0.61 positive, 0.60 neutral), and with every day absent
the tone is neutral.  Sentiments are in hundredths. -/
theorem tone_classification (l : List (Option Nat)) :
    (determine_current_tone l =
      (match l.reverse.findSome? (fun x => x) with
      | none => "neutral"
      | some v => if 61 ≤ v then "positive" else if 40 ≤ v then "neutral" else "negative"))
    ∧ determine_current_tone [none, none, none, none, none, none, some 40] = "neutral"
    ∧ determine_current_tone [none, none, none, none, none, none, some 39] = "negative"
    ∧ determine_current_tone [none, none, none, none, none, none, some 61] = "positive"
    ∧ determine_current_tone [none, none, none, none, none, none, some 60] = "neutral"
    ∧ determine_current_tone (List.replicate 7 none) = "neutral" :=
  ⟨toneScan_eq_findSome l.reverse, rfl, rfl, rfl, rfl, rfl⟩

/-- Claim C6: every latest heartbeat is classified into exactly one of
dead, healthy, degraded — dead exactly when the server-received timestamp
is missing or older than `now` minus the stale window, regardless of
latency or agent status; otherwise healthy exactly when the agent is "ok"
with a known latency strictly below 500 ms (499 healthy, 500 degraded);
degraded otherwise. -/
theorem heartbeat_status_classification (hb : DeviceLatestHeartbeat) (now stale_minutes : Nat) :
    (compute_status hb (staleCutoff now stale_minutes) = "dead"
      ∨ compute_status hb (staleCutoff now stale_minutes) = "healthy"
      ∨ compute_status hb (staleCutoff now stale_minutes) = "degraded")
    ∧ (compute_status hb (staleCutoff now stale_minutes) = "dead" ↔
      (hb.server_received_at = none ∨
        ∃ t, hb.server_received_at = some t ∧ t < staleCutoff now stale_minutes))
    ∧ (compute_status hb (staleCutoff now stale_minutes) = "healthy" ↔
      ((∃ t, hb.server_received_at = some t ∧ staleCutoff now stale_minutes ≤ t) ∧
        hb.agent_status = "ok" ∧ ∃ l, hb.latency_ms = some l ∧ l < 500))
    ∧ (compute_status hb (staleCutoff now stale_minutes) = "degraded" ↔
      ((∃ t, hb.server_received_at = some t ∧ staleCutoff now stale_minutes ≤ t) ∧
        ¬(hb.agent_status = "ok" ∧ ∃ l, hb.latency_ms = some l ∧ l < 500)))
    ∧ compute_status ⟨"ok", some 499, some 1000⟩ (staleCutoff 2200 20) = "healthy"
    ∧ compute_status ⟨"ok", some 500, some 1000⟩ (staleCutoff 2200 20) = "degraded"
    ∧ compute_status ⟨"ok", some 1, some 999⟩ (staleCutoff 2200 20) = "dead" := by
  obtain ⟨ast, lat, rec⟩ := hb
  refine ⟨?_, ?_, ?_, ?_, by decide, by decide, by decide⟩ <;>
    cases rec <;> cases lat <;>
      simp only [compute_status] <;> (try split_ifs) <;> simp_all

/-- Claim C10: merging a later batch of raw events into an existing hourly
summary leaves the stored `connectivity_mode` unchanged; the plurality
vote over connectivity modes only happens when the summary row is first
inserted. -/
theorem compaction_preserves_connectivity_mode (existing : DeviceHeartbeatSummary)
    (events : List RawPayload) :
    (upsertSummary (some existing) events).connectivity_mode = existing.connectivity_mode
    ∧ (upsertSummary none events).connectivity_mode =
      pluralityMode (events.map (fun e => e.connectivity)) :=
  ⟨rfl, rfl⟩

/-- Claim C7: when both the existing hourly summary and the batch carry
latency samples, the merged average latency is the count-weighted average
`(old_avg * old_count + batch_avg * batch_count) / (old_count +
batch_count)` with the pre-merge old count as weight and integer
truncation. -/
theorem compaction_weighted_average (existing : DeviceHeartbeatSummary)
    (events : List RawPayload) (old_avg : Int)
    (h_old : existing.avg_latency_ms = some old_avg)
    (h_batch : batchLatencies events ≠ []) :
    (mergeIntoSummary existing events).avg_latency_ms =
      some (Int.tdiv
        (old_avg * (existing.heartbeat_count : Int) +
          Int.tdiv (batchLatencies events).sum ((batchLatencies events).length : Int) *
            (events.length : Int))
        ((existing.heartbeat_count : Int) + (events.length : Int))) := by
  simp only [mergeIntoSummary, batchAvgLatency, h_old, List.isEmpty_eq_true, h_batch,
    if_neg, Nat.add_sub_cancel]
  norm_cast

/-- Witness for C7 at the spec's example: an existing bucket with average
latency 100 over count 10 merged with 5 events of latency 200 each yields
truncated weighted average 133. -/
theorem compaction_weighted_average_witness :
    (⟨10, some 100, some 50, some 150, "wifi", 8, 2, 0, 0⟩ :
        DeviceHeartbeatSummary).avg_latency_ms = some 100
    ∧ batchLatencies (List.replicate 5 ⟨some 200, "wifi", "ok"⟩) ≠ []
    ∧ (mergeIntoSummary ⟨10, some 100, some 50, some 150, "wifi", 8, 2, 0, 0⟩
        (List.replicate 5 ⟨some 200, "wifi", "ok"⟩)).avg_latency_ms = some 133 := by
  refine ⟨rfl, by decide, ?_⟩
  have h := compaction_weighted_average
    ⟨10, some 100, some 50, some 150, "wifi", 8, 2, 0, 0⟩
    (List.replicate 5 ⟨some 200, "wifi", "ok"⟩) 100 rfl (by decide)
  rw [h]
  decide

/-- Claim C3: for the example scenario (sessions at day offsets 2, 1, 0
with durations 90, 119, 180 seconds and sentiments 0.62, 0.58, 0.39 in
the 7-day window) the recomputed rollup carries daily minutes 2, 2, 3 at
the three active slots (round-half-up of 1.5, 1.983 and 3.0),
avg_duration_minutes 2 (round-half-up of the mean of the non-zero daily
values, 0 when no day has activity), derived streak 3 and current tone
"negative". -/
theorem rollup_example_scenario :
    (recompute_dashboard_rollup exampleNow exampleSessions).daily_activity =
      [false, false, false, false, true, true, true]
    ∧ (recompute_dashboard_rollup exampleNow exampleSessions).daily_durations =
      [0, 0, 0, 0, 2, 2, 3]
    ∧ (recompute_dashboard_rollup exampleNow exampleSessions).daily_sentiment =
      [none, none, none, none, some 62, some 58, some 39]
    ∧ round_minutes_from_seconds 90 = 2
    ∧ round_minutes_from_seconds 119 = 2
    ∧ round_minutes_from_seconds 180 = 3
    ∧ (recompute_dashboard_rollup exampleNow exampleSessions).avg_duration_minutes = 2
    ∧ roundHalfUpDiv (2 + 2 + 3) 3 = 2
    ∧ average_nonzero_duration [0, 0, 0, 0, 0, 0, 0] = 0
    ∧ (recompute_dashboard_rollup exampleNow []).avg_duration_minutes = 0
    ∧ calculate_streak_days
        (recompute_dashboard_rollup exampleNow exampleSessions).daily_activity = 3
    ∧ (recompute_dashboard_rollup exampleNow exampleSessions).current_tone = "negative" := by
  decide

/-- Claim C2: every recomputed rollup has per-day arrays of length exactly
7; slot `i` is the aggregate of UTC calendar day `startDay now + i`, so
slot 0 belongs to the oldest day of the window and slot 6 (`startDay + 6
= today`) to the current UTC day at computation time. -/
theorem rollup_arrays_shape (now : Nat) (sessions : List SessionFact) :
    (recompute_dashboard_rollup now sessions).daily_activity.length = 7
    ∧ (recompute_dashboard_rollup now sessions).daily_durations.length = 7
    ∧ (recompute_dashboard_rollup now sessions).daily_sentiment.length = 7
    ∧ (6 ≤ dateOf now → startDay now + 6 = dateOf now)
    ∧ (∀ i, i < 7 →
      (recompute_dashboard_rollup now sessions).daily_activity[i]? =
        some (!(bucketOf now sessions (startDay now + i)).isEmpty)
      ∧ (recompute_dashboard_rollup now sessions).daily_durations[i]? =
        some (if (bucketOf now sessions (startDay now + i)).isEmpty then 0
          else round_minutes_from_seconds
            (((bucketOf now sessions (startDay now + i)).map
              (fun s => s.duration_seconds)).sum))
      ∧ (recompute_dashboard_rollup now sessions).daily_sentiment[i]? =
        some (if (bucketOf now sessions (startDay now + i)).isEmpty then none
          else some (average_sentiment
            ((bucketOf now sessions (startDay now + i)).map
              (fun s => s.sentiment_score))))) := by
  refine ⟨?_, ?_, ?_, ?_, ?_⟩
  · simp [recompute_dashboard_rollup, orderedDays]
  · simp [recompute_dashboard_rollup, orderedDays]
  · simp [recompute_dashboard_rollup, orderedDays]
  · intro h6
    unfold startDay
    omega
  · intro i hi
    interval_cases i <;> exact ⟨rfl, rfl, rfl⟩

/-- Witness for C2 at a concrete clock reading (UTC day 7, midnight) and
an empty session list. -/
theorem rollup_arrays_shape_witness :
    6 ≤ dateOf 604800 ∧ startDay 604800 + 6 = dateOf 604800
    ∧ (recompute_dashboard_rollup 604800 []).daily_activity.length = 7 := by
  refine ⟨by decide, ?_, ?_⟩
  · exact (rollup_arrays_shape 604800 []).2.2.2.1 (by decide)
  · exact (rollup_arrays_shape 604800 []).1

theorem recompute_congr (now : Nat) (ss1 ss2 : List SessionFact)
    (h : ∀ day ∈ orderedDays now, bucketOf now ss1 day = bucketOf now ss2 day) :
    recompute_dashboard_rollup now ss1 = recompute_dashboard_rollup now ss2 := by
  have hmapA : (orderedDays now).map (fun day => !(bucketOf now ss1 day).isEmpty)
      = (orderedDays now).map (fun day => !(bucketOf now ss2 day).isEmpty) :=
    List.map_congr_left (fun day hd => by rw [h day hd])
  have hmapD : (orderedDays now).map (fun day =>
        if (bucketOf now ss1 day).isEmpty then 0
        else round_minutes_from_seconds
          ((bucketOf now ss1 day).map (fun s => s.duration_seconds)).sum)
      = (orderedDays now).map (fun day =>
        if (bucketOf now ss2 day).isEmpty then 0
        else round_minutes_from_seconds
          ((bucketOf now ss2 day).map (fun s => s.duration_seconds)).sum) :=
    List.map_congr_left (fun day hd => by rw [h day hd])
  have hmapS : (orderedDays now).map (fun day =>
        if (bucketOf now ss1 day).isEmpty then none
        else some (average_sentiment
          ((bucketOf now ss1 day).map (fun s => s.sentiment_score))))
      = (orderedDays now).map (fun day =>
        if (bucketOf now ss2 day).isEmpty then none
        else some (average_sentiment
          ((bucketOf now ss2 day).map (fun s => s.sentiment_score)))) :=
    List.map_congr_left (fun day hd => by rw [h day hd])
  have hlast : lastSessionAt now ss1 = lastSessionAt now ss2 := by
    unfold lastSessionAt
    exact List.foldl_ext _ _ none (fun acc day hd => by rw [h day hd])
  simp only [recompute_dashboard_rollup]
  rw [hlast, hmapA, hmapD, hmapS]

/-- Claim C5: a session starting outside the trailing 7-day window (before
`startDay 00:00:00 UTC`, or on a UTC day after today) contributes nothing
to the recomputed rollup; a session starting exactly at `startDay
00:00:00 UTC` is included (it makes slot 0 active).  One second before
the window start is strictly below `windowStart`, so the first conjunct
covers the exclusion boundary. -/
theorem rollup_window_boundary (now : Nat) (sessions : List SessionFact) (s : SessionFact) :
    (s.started_at < windowStart now →
      recompute_dashboard_rollup now (s :: sessions) = recompute_dashboard_rollup now sessions)
    ∧ (6 ≤ dateOf now → dateOf now < dateOf s.started_at →
      recompute_dashboard_rollup now (s :: sessions) = recompute_dashboard_rollup now sessions)
    ∧ (s.started_at = windowStart now →
      (recompute_dashboard_rollup now (s :: sessions)).daily_activity[0]? = some true) := by
  refine ⟨?_, ?_, ?_⟩
  · intro hlt
    have hw : windowSessions now (s :: sessions) = windowSessions now sessions := by
      simp [windowSessions, List.filter_cons, Nat.not_le.2 hlt]
    exact recompute_congr now _ _ (fun day _ => by simp [bucketOf, hw])
  · intro h6 hfut
    apply recompute_congr now
    intro day hd
    have hday : day ≠ dateOf s.started_at := by
      simp only [orderedDays, List.mem_map, List.mem_range] at hd
      obtain ⟨offset, hoff, rfl⟩ := hd
      unfold startDay at *
      omega
    have hpass : windowStart now ≤ s.started_at := by
      have h1 : startDay now ≤ dateOf s.started_at := by unfold startDay; omega
      have h2 : dateOf s.started_at * 86400 ≤ s.started_at := Nat.div_mul_le_self _ _
      have h3 : startDay now * 86400 ≤ dateOf s.started_at * 86400 :=
        Nat.mul_le_mul_right _ h1
      unfold windowStart
      omega
    have hw : windowSessions now (s :: sessions) = s :: windowSessions now sessions := by
      simp [windowSessions, List.filter_cons, hpass]
    have hne : dateOf s.started_at ≠ day := fun hh => hday hh.symm
    simp [bucketOf, hw, List.filter_cons, hne]
  · intro heq
    have hpass : windowStart now ≤ s.started_at := le_of_eq heq.symm
    have hdy : dateOf s.started_at = startDay now + 0 := by
      rw [heq]
      unfold dateOf windowStart
      omega
    have hw : windowSessions now (s :: sessions) = s :: windowSessions now sessions := by
      simp [windowSessions, List.filter_cons, hpass]
    have hbucket : bucketOf now (s :: sessions) (startDay now + 0) =
        s :: bucketOf now sessions (startDay now + 0) := by
      simp [bucketOf, hw, List.filter_cons, hdy]
    have hslot : (recompute_dashboard_rollup now (s :: sessions)).daily_activity[0]? =
        some (!(bucketOf now (s :: sessions) (startDay now + 0)).isEmpty) := rfl
    rw [hslot, hbucket]
    simp

/-- Witness for C5 at concrete inputs: with `now` at noon of UTC day 1000
(window start = day 994, timestamp 85881600), a session one second before
the window start is discarded, and a session exactly at the window start
activates slot 0. -/
theorem rollup_window_boundary_witness :
    (⟨"u", none, "early", 85881599, 60, 50⟩ : SessionFact).started_at <
      windowStart exampleNow
    ∧ recompute_dashboard_rollup exampleNow [⟨"u", none, "early", 85881599, 60, 50⟩] =
      recompute_dashboard_rollup exampleNow []
    ∧ (⟨"u", none, "boundary", 85881600, 60, 50⟩ : SessionFact).started_at =
      windowStart exampleNow
    ∧ (recompute_dashboard_rollup exampleNow
        [⟨"u", none, "boundary", 85881600, 60, 50⟩]).daily_activity[0]? = some true := by
  refine ⟨by decide, ?_, by decide, ?_⟩
  · exact (rollup_window_boundary exampleNow [] ⟨"u", none, "early", 85881599, 60, 50⟩).1
      (by decide)
  · exact (rollup_window_boundary exampleNow [] ⟨"u", none, "boundary", 85881600, 60, 50⟩).2.2
      (by decide)

/-- Counterexample to C8 as stated: `update_command_status` overwrites the
stored status unconditionally, so a command already in the terminal state
COMPLETED transitions to FAILED when a second report arrives. -/
theorem command_terminal_overwritten :
    (update_command_status [⟨7, "dev-1", "REBOOT", "COMPLETED", none, 5⟩] 7 "FAILED" none).1 =
      [⟨7, "dev-1", "REBOOT", "FAILED", none, 5⟩]
    ∧ (update_command_status [⟨7, "dev-1", "REBOOT", "COMPLETED", none, 5⟩] 7 "FAILED" none).2 =
      some ⟨7, "dev-1", "REBOOT", "FAILED", none, 5⟩
    ∧ ("FAILED" : String) ≠ "COMPLETED" := by
  refine ⟨by decide, by decide, by decide⟩

/-- Claim C8 (amended): `reportStatus` on an unknown command id is a
not-found outcome that changes no state; on a known id it overwrites the
stored status with the reported terminal value unconditionally — the code
does not guard already-terminal commands, so COMPLETED and FAILED can be
overwritten by a later report. -/
theorem report_status_amended (store : List DeviceCommand) (command_id : Nat)
    (new_status : String) (error : Option String) :
    ((update_command_status store command_id new_status error).2 = none ↔
      store.find? (fun c => c.id = command_id) = none)
    ∧ (store.find? (fun c => c.id = command_id) = none →
      (update_command_status store command_id new_status error).1 = store)
    ∧ (∀ c, (update_command_status store command_id new_status error).2 = some c →
      c.status = new_status ∧ c.error_message = error) := by
  cases hfind : store.find? (fun c => c.id = command_id) with
  | none =>
    refine ⟨by simp [update_command_status, hfind], fun _ => by simp [update_command_status, hfind], ?_⟩
    intro c hc
    simp [update_command_status, hfind] at hc
  | some c0 =>
    refine ⟨by simp [update_command_status, hfind], fun h => by simp [hfind] at h, ?_⟩
    intro c hc
    simp only [update_command_status, hfind] at hc
    cases hc
    exact ⟨rfl, rfl⟩

/-- Witness for the amended C8: reporting on an unknown id over a
single-command store returns the not-found outcome and leaves the store
unchanged; reporting on the known id yields a FAILED row. -/
theorem report_status_amended_witness :
    (((update_command_status [⟨7, "dev-1", "REBOOT", "COMPLETED", none, 5⟩] 9 "FAILED" none).2
        = none) ↔
      ([⟨7, "dev-1", "REBOOT", "COMPLETED", none, 5⟩] :
        List DeviceCommand).find? (fun c => c.id = 9) = none)
    ∧ (([⟨7, "dev-1", "REBOOT", "COMPLETED", none, 5⟩] :
        List DeviceCommand).find? (fun c => c.id = 9) = none →
      (update_command_status [⟨7, "dev-1", "REBOOT", "COMPLETED", none, 5⟩] 9 "FAILED" none).1 =
        [⟨7, "dev-1", "REBOOT", "COMPLETED", none, 5⟩])
    ∧ (∀ c, (update_command_status [⟨7, "dev-1", "REBOOT", "COMPLETED", none, 5⟩]
        9 "FAILED" none).2 = some c →
      c.status = "FAILED" ∧ c.error_message = none) :=
  report_status_amended [⟨7, "dev-1", "REBOOT", "COMPLETED", none, 5⟩] 9 "FAILED" none

theorem filter_pending_eq_nil (store : List DeviceCommand) (dev : String)
    (hpend : ∀ c ∈ store, c.device_id = dev → c.status ≠ "PENDING") :
    store.filter (fun c => c.device_id = dev ∧ c.status = "PENDING") = [] := by
  induction store with
  | nil => rfl
  | cons c rest ih =>
    have hc : ¬(c.device_id = dev ∧ c.status = "PENDING") :=
      fun hand => hpend c (by simp) hand.1 hand.2
    rw [List.filter_cons, if_neg (by simpa using hc)]
    exact ih (fun x hx => hpend x (by simp [hx]))

theorem map_unclaimed (store : List DeviceCommand) (cid : Nat)
    (h : ∀ c ∈ store, c.id ≠ cid) :
    store.map (fun x => if x.id = cid then { x with status := "PICKED_UP" } else x) = store := by
  have h2 : store.map (fun x => if x.id = cid then { x with status := "PICKED_UP" } else x)
      = store.map id := List.map_congr_left (fun c hc => by simp [h c hc])
  simpa using h2

theorem get_pending_eq (store : List DeviceCommand) (dev : String) (c : DeviceCommand)
    (h : oldestPending store dev = some c) :
    get_pending_command store dev =
      (store.map (fun x => if x.id = c.id then { x with status := "PICKED_UP" } else x),
       some { c with status := "PICKED_UP" }) := by
  unfold get_pending_command
  rw [h]

/-- Claim C9: per-device FIFO dispatch — enqueueing command A then B for
the same device (fresh ids, strictly increasing creation times, no other
pending command for that device), the first poll returns A marked
PICKED_UP, the second returns B, and a third poll returns nothing. -/
theorem command_fifo (store : List DeviceCommand) (dev tyA tyB : String)
    (idA idB tA tB : Nat)
    (hpend : ∀ c ∈ store, c.device_id = dev → c.status ≠ "PENDING")
    (hidA : ∀ c ∈ store, c.id ≠ idA)
    (hidB : ∀ c ∈ store, c.id ≠ idB)
    (hAB : idA ≠ idB)
    (ht : tA < tB) :
    let st2 := (queue_command (queue_command store idA tA dev tyA).1 idB tB dev tyB).1
    let poll1 := get_pending_command st2 dev
    let poll2 := get_pending_command poll1.1 dev
    let poll3 := get_pending_command poll2.1 dev
    poll1.2 = some ⟨idA, dev, tyA, "PICKED_UP", none, tA⟩
    ∧ poll2.2 = some ⟨idB, dev, tyB, "PICKED_UP", none, tB⟩
    ∧ poll3.2 = none := by
  intro st2 poll1 poll2 poll3
  have hst2 : st2 = store ++
      [⟨idA, dev, tyA, "PENDING", none, tA⟩, ⟨idB, dev, tyB, "PENDING", none, tB⟩] := by
    simp [st2, queue_command]
  have hold1 : oldestPending st2 dev = some ⟨idA, dev, tyA, "PENDING", none, tA⟩ := by
    rw [hst2]
    unfold oldestPending
    rw [List.filter_append, filter_pending_eq_nil store dev hpend]
    simp only [List.nil_append, List.filter_cons, List.filter_nil]
    norm_num
    omega
  have hpoll1 : poll1 = (store ++
      [⟨idA, dev, tyA, "PICKED_UP", none, tA⟩, ⟨idB, dev, tyB, "PENDING", none, tB⟩],
      some ⟨idA, dev, tyA, "PICKED_UP", none, tA⟩) := by
    show get_pending_command st2 dev = _
    rw [get_pending_eq st2 dev _ hold1, hst2]
    simp [map_unclaimed store idA hidA, Ne.symm hAB]
  have hold2 : oldestPending poll1.1 dev = some ⟨idB, dev, tyB, "PENDING", none, tB⟩ := by
    rw [hpoll1]
    unfold oldestPending
    rw [List.filter_append, filter_pending_eq_nil store dev hpend]
    simp
  have hpoll2 : poll2 = (store ++
      [⟨idA, dev, tyA, "PICKED_UP", none, tA⟩, ⟨idB, dev, tyB, "PICKED_UP", none, tB⟩],
      some ⟨idB, dev, tyB, "PICKED_UP", none, tB⟩) := by
    show get_pending_command poll1.1 dev = _
    rw [get_pending_eq poll1.1 dev _ hold2, hpoll1]
    simp [map_unclaimed store idB hidB, Ne.symm hAB, hAB]
  have hold3 : oldestPending poll2.1 dev = none := by
    rw [hpoll2]
    unfold oldestPending
    rw [List.filter_append, filter_pending_eq_nil store dev hpend]
    simp
  have hpoll3 : poll3.2 = none := by
    show (get_pending_command poll2.1 dev).2 = none
    unfold get_pending_command
    rw [hold3]
  exact ⟨by rw [hpoll1], by rw [hpoll2], hpoll3⟩

/-- Witness for C9: over an empty store, enqueue command 1 at time 10 then
command 2 at time 20 for device "dev-1"; the polls return command 1,
then command 2, then nothing. -/
theorem command_fifo_witness :
    (∀ c ∈ ([] : List DeviceCommand), c.device_id = "dev-1" → c.status ≠ "PENDING")
    ∧ (let st2 := (queue_command (queue_command [] 1 10 "dev-1" "REBOOT").1
        2 20 "dev-1" "UPLOAD_LOGS").1
      let poll1 := get_pending_command st2 "dev-1"
      let poll2 := get_pending_command poll1.1 "dev-1"
      let poll3 := get_pending_command poll2.1 "dev-1"
      poll1.2 = some ⟨1, "dev-1", "REBOOT", "PICKED_UP", none, 10⟩
      ∧ poll2.2 = some ⟨2, "dev-1", "UPLOAD_LOGS", "PICKED_UP", none, 20⟩
      ∧ poll3.2 = none) := by
  refine ⟨by simp, ?_⟩
  exact command_fifo [] "dev-1" "REBOOT" "UPLOAD_LOGS" 1 2 10 20
    (by simp) (by simp) (by simp) (by omega) (by omega)

/-- Claim C1 (code evaluated at the failing input): `ingest_session_summary`
raises `AttributeError` for every request — `SessionSummaryIngestRequest`
declares no `status` field but the insert is built with
`status=payload.status` — so no ingest ever reports `applied` or
`duplicate`.  The first conjunct evaluates the failing input of the
repository's own duplicate-detection test. -/
theorem ingest_raises_attribute_error :
    ingest_session_summary ⟨[], [], []⟩ (1000 * 86400) "user-uuid-1"
      ⟨"duplicate-session", "ingest-user", 1000 * 86400 - 3600, 600, 50⟩ none =
      Except.error "AttributeError: SessionSummaryIngestRequest has no attribute status"
    ∧ ∀ (st : DbState) (now : Nat) (fresh : String) (p : SessionSummaryIngestRequest)
        (dev : Option String),
      ∃ msg, ingest_session_summary st now fresh p dev = Except.error msg :=
  ⟨rfl, fun _ _ _ _ _ => ⟨_, rfl⟩⟩
